import Mathlib

/-
Verification of the quizlet flashcard scraper (src/quizlet.py) against its
specification.  The DOM is embedded as a tree of elements; the external
world (browser driver, bounded waits, HTTP client, temp-file creation) is
embedded as an explicit environment, and the scraping pipeline as
Except-returning functions threading the temp-file state.
-/

/-
A DOM element: tag name, attributes, visible text, and child elements in
document order.  Children are a mutually defined list so that all
traversals are structurally recursive.
-/
mutual

inductive Elem where
  | mk (tag : String) (attrs : List (String × String)) (text : String)
       (children : ElemList)

inductive ElemList where
  | nil
  | cons (hd : Elem) (tl : ElemList)

end

def Elem.tag : Elem → String
  | .mk t _ _ _ => t

def Elem.attrs : Elem → List (String × String)
  | .mk _ a _ _ => a

def Elem.text : Elem → String
  | .mk _ _ s _ => s

def ElemList.toList : ElemList → List Elem
  | .nil => []
  | .cons e es => e :: es.toList

def ElemList.ofList : List Elem → ElemList
  | [] => .nil
  | e :: es => .cons e (ElemList.ofList es)

/-- The children of an element, as an ordinary list. -/
def Elem.children : Elem → List Elem
  | .mk _ _ _ c => c.toList

/-- Builds an element from an ordinary list of children. -/
def Elem.node (tag : String) (attrs : List (String × String)) (text : String)
    (children : List Elem) : Elem :=
  .mk tag attrs text (.ofList children)

/-- All elements of the given forest in document (preorder) order:
each root followed by its descendants. -/
def preorderForest : ElemList → List Elem
  | .nil => []
  | .cons (.mk t a s c) es => .mk t a s c :: (preorderForest c ++ preorderForest es)

/-- Descendants of an element (the XPath `.//` axis), in document order. -/
def descendantsOf : Elem → List Elem
  | .mk _ _ _ c => preorderForest c

/-- Attribute lookup; selenium get_attribute returns None when absent. -/
def attr? (e : Elem) (name : String) : Option String :=
  (e.attrs.find? (fun p => p.1 == name)).map (fun p => p.2)

/-- XPath attribute test `[@class="c"]`: exact string equality on the
class attribute. -/
def hasClassExact (e : Elem) (c : String) : Bool :=
  attr? e "class" == some c

/-- Splits on a separator character, keeping empty fragments: the
behaviour of String.splitOn for a one-character separator, implemented
structurally over the character list. -/
def splitTokensAux (sep : Char) : List Char → List Char → List String
  | [], acc => [String.mk acc.reverse]
  | c :: cs, acc =>
    if c = sep then String.mk acc.reverse :: splitTokensAux sep cs []
    else splitTokensAux sep cs (c :: acc)

/-- The whitespace-separated tokens of a class attribute value. -/
def splitTokens (s : String) : List String :=
  splitTokensAux ' ' s.toList []

/-- find_elements_by_class_name matches elements whose class attribute
contains the given token (CSS class semantics). -/
def hasClassToken (e : Elem) (c : String) : Bool :=
  (splitTokens ((attr? e "class").getD "")).contains c

/-- Exceptions the Python code can raise, by library exception type.  The
spec renames them by stage: webDriverException = SessionInitError,
noSuchElementException / timeoutException = ElementNotFoundError or the
locate timeout, timeoutException on the post-login URL wait =
AuthenticationTimeoutError, valueError raised on line 102 =
ImageDownloadError, requestsMissingSchema = the requests library failing
on a missing URL.  A timeoutException carries the wait condition that
expired. -/
inductive PyErr where
  | webDriverException
  | noSuchElementException
  | timeoutException (cond : String)
  | valueError (msg : String)
  | requestsMissingSchema
deriving DecidableEq, Repr

/-- An HTTP response: status code and body bytes. -/
structure HttpResp where
  status_code : Nat
  content : List Nat
deriving DecidableEq, Repr

/-- Temp-file state: tempfile.mkstemp counter and the files written so far
(most recent first), each a path paired with its byte content. -/
structure FS where
  counter : Nat
  files : List (String × List Nat)
deriving DecidableEq, Repr

/-- The fresh path tempfile.mkstemp returns for the n-th creation. -/
def tmpName (n : Nat) : String :=
  "/tmp/tmp" ++ toString n

/-- The external world of one scrape call: whether the Chrome driver
starts; which element, if any, each selenium wait or lookup yields within
its bounded timeout (none = timeout / not found); whether the post-login
URL match succeeds within its 10 second wait; the navigator userAgent;
and the HTTP client as a function of URL and User-Agent header. -/
structure Env where
  driverOk : Bool
  loginButton : Option Elem
  usernameInput : Option Elem
  passwordInput : Option Elem
  submitButton : Option Elem
  postLoginUrlReached : Bool
  setPageSetDetails : Option Elem
  userAgent : String
  termsListElement : Option Elem
  http : String → String → HttpResp

/-- The wait conditions (xpath strings and the URL-match condition) used
by the source, kept verbatim for timeout reporting. -/
def loginButtonXPath : String :=
  "//div[@class=\"SiteNavLoginSection\"]/button[@aria-label=\"Log in\"]"

def usernameXPath : String :=
  "//input[@id=\"username\"]"

def passwordXPath : String :=
  "//input[@id=\"password\"]"

def submitXPath : String :=
  "//button[@type=\"submit\" and @aria-label=\"Log in\"]"

def termsListXPath : String :=
  "//section[@class=\"SetPageTerms-termsList\"]"

def urlMatchesCond : String :=
  "url_matches https://quizlet.com/latest"

/-- get_elem_wait_by_xpath: wait.until(presence_of_element_located(xpath)),
given the element the environment yields for that wait; raises
TimeoutException when the element never appears within the timeout. -/
def get_elem_wait_by_xpath (located : Option Elem) (xpath_cond : String) :
    Except PyErr Elem :=
  match located with
  | some e => .ok e
  | none => .error (.timeoutException xpath_cond)

/-- authenticate_to_quizlet: opens the home page, waits for and clicks the
login button, fills the username and password inputs, clicks submit, then
waits up to 10 seconds for the post-login URL match. -/
def authenticate_to_quizlet (env : Env) (username password : String) :
    Except PyErr Unit :=
  match get_elem_wait_by_xpath env.loginButton loginButtonXPath with
  | .error e => .error e
  | .ok _ =>
    match get_elem_wait_by_xpath env.usernameInput usernameXPath with
    | .error e => .error e
    | .ok _ =>
      match get_elem_wait_by_xpath env.passwordInput passwordXPath with
      | .error e => .error e
      | .ok _ =>
        match get_elem_wait_by_xpath env.submitButton submitXPath with
        | .error e => .error e
        | .ok _ =>
          if env.postLoginUrlReached then .ok ()
          else .error (.timeoutException urlMatchesCond)

/-- init_chrome_webdriver: starting Chrome either yields a driver or the
selenium WebDriverException. -/
def init_chrome_webdriver (env : Env) : Except PyErr Unit :=
  if env.driverOk then .ok () else .error .webDriverException

/-- `.//div[@class="SetPageTerm-content"]` under a term element, first
match in document order (line 60). -/
def contentElem? (term : Elem) : Option Elem :=
  ((descendantsOf term).filter
    (fun e => e.tag == "div" && hasClassExact e "SetPageTerm-content")).head?

/-- `./div[@class="SetPageTerm-side SetPageTerm-smallSide"]` (line 61). -/
def smallSideOf? (content : Elem) : Option Elem :=
  (content.children.filter
    (fun e => e.tag == "div" &&
      hasClassExact e "SetPageTerm-side SetPageTerm-smallSide")).head?

/-- `./div[@class="SetPageTerm-side SetPageTerm-largeSide"]` (line 62). -/
def largeSideOf? (content : Elem) : Option Elem :=
  (content.children.filter
    (fun e => e.tag == "div" &&
      hasClassExact e "SetPageTerm-side SetPageTerm-largeSide")).head?

/-- `./div/a/span` under the small side (line 71), matches in document
order. -/
def labelSpans (small : Elem) : List Elem :=
  (small.children.filter (fun e => e.tag == "div")).flatMap fun d =>
    (d.children.filter (fun e => e.tag == "a")).flatMap fun a =>
      a.children.filter (fun e => e.tag == "span")

/-- `.//a[@class="SetPageTerm-definitionText"]` under the large side
(line 84), first match. -/
def definitionElem? (large : Elem) : Option Elem :=
  ((descendantsOf large).filter
    (fun e => e.tag == "a" &&
      hasClassExact e "SetPageTerm-definitionText")).head?

/-- `./span` under the definition element (line 85), first match. -/
def spanChild? (e : Elem) : Option Elem :=
  (e.children.filter (fun c => c.tag == "span")).head?

/-- `.//img` under the large side (lines 90 and 97), document order. -/
def imgsOf (large : Elem) : List Elem :=
  (descendantsOf large).filter (fun e => e.tag == "img")

/-- _process_small_side_elem: text of the first `./div/a/span` element;
find_element raises NoSuchElementException when there is none. -/
def _process_small_side_elem (small_side_elem : Elem) : Except PyErr String :=
  match (labelSpans small_side_elem).head? with
  | none => .error .noSuchElementException
  | some t => .ok t.text

/-- _process_definition_text_elem: text of the `./span` of the first
`.//a[@class="SetPageTerm-definitionText"]` element. -/
def _process_definition_text_elem (large_side_elem : Elem) :
    Except PyErr String :=
  match definitionElem? large_side_elem with
  | none => .error .noSuchElementException
  | some d =>
    match spanChild? d with
    | none => .error .noSuchElementException
    | some sp => .ok sp.text

/-- _image_exists: len(find_elements .//img) > 0. -/
def _image_exists (large_side_elem : Elem) : Bool :=
  (imgsOf large_side_elem).length > 0

/-- _download_image: returns None when no image element is present;
otherwise takes the first `.//img`, reads its src attribute (requests
raises on a missing URL), issues an HTTP GET with the captured User-Agent,
raises ValueError when the status is not 200, and otherwise writes the
body to a fresh temp file and returns its path. -/
def _download_image (env : Env) (fs : FS) (large_side_elem : Elem)
    (user_agent : String) : FS × Except PyErr (Option String) :=
  if _image_exists large_side_elem = false then
    (fs, .ok none)
  else
    match (imgsOf large_side_elem).head? with
    | none => (fs, .error .noSuchElementException)
    | some img =>
      match attr? img "src" with
      | none => (fs, .error .requestsMissingSchema)
      | some src =>
        let resp := env.http src user_agent
        if resp.status_code ≠ 200 then
          (fs, .error (.valueError "Could not download image"))
        else
          let file_name := tmpName fs.counter
          (⟨fs.counter + 1, (file_name, resp.content) :: fs.files⟩,
           .ok (some file_name))

/-- _process_large_side_elem: definition text, then the optional image
download (lines 77 and 78, in that order). -/
def _process_large_side_elem (env : Env) (fs : FS) (large_side_elem : Elem)
    (user_agent : String) : FS × Except PyErr (String × Option String) :=
  match _process_definition_text_elem large_side_elem with
  | .error e => (fs, .error e)
  | .ok definition_text =>
    match _download_image env fs large_side_elem user_agent with
    | (fs', .error e) => (fs', .error e)
    | (fs', .ok image_file_path) => (fs', .ok (definition_text, image_file_path))

/-- A quizlet flashcard: front text, back text, optional path of the
downloaded back-side image. -/
structure Flashcard where
  front : String
  back : String
  back_image_path : Option String
deriving DecidableEq, Repr

/-- _process_term_element: locates the content div, the small side and the
large side (lines 60 to 62), processes the large side (line 63, including
any image download), then the small side text (line 64), and builds the
Flashcard. -/
def _process_term_element (env : Env) (fs : FS) (term : Elem)
    (user_agent : String) : FS × Except PyErr Flashcard :=
  match contentElem? term with
  | none => (fs, .error .noSuchElementException)
  | some flash_card_elem =>
    match smallSideOf? flash_card_elem with
    | none => (fs, .error .noSuchElementException)
    | some small_side_elem =>
      match largeSideOf? flash_card_elem with
      | none => (fs, .error .noSuchElementException)
      | some large_side_elem =>
        match _process_large_side_elem env fs large_side_elem user_agent with
        | (fs', .error e) => (fs', .error e)
        | (fs', .ok (back, back_image_path)) =>
          match _process_small_side_elem small_side_elem with
          | .error e => (fs', .error e)
          | .ok front =>
            (fs', .ok ⟨front, back, back_image_path⟩)

/-- The list comprehension on line 50: processes the located term elements
left to right, stopping at the first raised exception. -/
def process_terms (env : Env) (user_agent : String) :
    List Elem → FS → FS × Except PyErr (List Flashcard)
  | [], fs => (fs, .ok [])
  | t :: ts, fs =>
    match _process_term_element env fs t user_agent with
    | (fs', .error e) => (fs', .error e)
    | (fs', .ok fc) =>
      match process_terms env user_agent ts fs' with
      | (fs'', .error e) => (fs'', .error e)
      | (fs'', .ok rest) => (fs'', .ok (fc :: rest))

/-- The term elements of the located terms-list container (line 49):
find_elements_by_class_name with the SetPageTerms-term token. -/
def termElems (terms_list_element : Elem) : List Elem :=
  (descendantsOf terms_list_element).filter
    (fun e => hasClassToken e "SetPageTerms-term")

/-- The outcome of one scrape call: final temp-file state, the returned
list or raised exception, and how many times the driver was closed. -/
structure ScrapeResult where
  fs : FS
  result : Except PyErr (List Flashcard)
  driverCloses : Nat
deriving Repr

/-- scrape_quizlet_flashcards: opens the driver in a with-block (so the
driver is closed exactly once on every exit from the block, normal or
exceptional), authenticates, navigates to the url, locates the
setPageSetDetails element and hovers over it, reads the userAgent, waits
for the terms-list container, and processes every term element. -/
def scrape_quizlet_flashcards (env : Env) (url username password : String)
    (fs : FS) : ScrapeResult :=
  match init_chrome_webdriver env with
  | .error e => ⟨fs, .error e, 0⟩
  | .ok _ =>
    let body : FS × Except PyErr (List Flashcard) :=
      match authenticate_to_quizlet env username password with
      | .error e => (fs, .error e)
      | .ok _ =>
        match env.setPageSetDetails with
        | none => (fs, .error .noSuchElementException)
        | some _ =>
          let user_agent := env.userAgent
          match get_elem_wait_by_xpath env.termsListElement termsListXPath with
          | .error e => (fs, .error e)
          | .ok terms_list_element =>
            process_terms env user_agent (termElems terms_list_element) fs
    ⟨body.1, body.2, 1⟩

/-- A small-side element holding the front label text, shaped as the
scraper expects: div > div > a > span. -/
def mkSmallSide (label : String) : Elem :=
  .node "div" [("class", "SetPageTerm-side SetPageTerm-smallSide")] ""
    [.node "div" [] "" [.node "a" [] "" [.node "span" [] label []]]]

/-- A large-side element holding the definition text and any image
elements. -/
def mkLargeSide (defn : String) (imgs : List Elem) : Elem :=
  .node "div" [("class", "SetPageTerm-side SetPageTerm-largeSide")] ""
    (.node "a" [("class", "SetPageTerm-definitionText")] ""
      [.node "span" [] defn []] :: imgs)

/-- An img element with the given src attribute. -/
def mkImg (src : String) : Elem :=
  .node "img" [("src", src)] "" []

/-- A term element shaped as the scraper expects. -/
def mkTermElem (label defn : String) (imgs : List Elem) : Elem :=
  .node "div" [("class", "SetPageTerms-term")] ""
    [.node "div" [("class", "SetPageTerm-content")] ""
      [mkSmallSide label, mkLargeSide defn imgs]]

/-- A terms-list container with the given term elements. -/
def mkTermsList (ts : List Elem) : Elem :=
  .node "section" [("class", "SetPageTerms-termsList")] "" ts

/-- An environment in which every wait succeeds: all login controls are
present, login completes, the details element exists, and every HTTP GET
answers 200 with a one-byte body. -/
def happyEnv (ts : List Elem) : Env where
  driverOk := true
  loginButton := some (.node "button" [] "Log in" [])
  usernameInput := some (.node "input" [] "" [])
  passwordInput := some (.node "input" [] "" [])
  submitButton := some (.node "button" [] "" [])
  postLoginUrlReached := true
  setPageSetDetails := some (.node "div" [] "" [])
  userAgent := "UA"
  termsListElement := some (mkTermsList ts)
  http := fun _ _ => ⟨200, [7]⟩

/-- An otherwise healthy environment in which the post-login URL match
times out. -/
def env6 : Env :=
  { happyEnv [] with postLoginUrlReached := false }

/-- An otherwise healthy environment in which the terms-list container
never appears. -/
def env7 : Env :=
  { happyEnv [] with termsListElement := none }

/-- An environment whose HTTP client answers success with an empty body. -/
def env3x : Env :=
  { happyEnv [] with http := fun _ _ => ⟨200, []⟩ }

/-- An environment whose HTTP client serves body [1] with status 200 for
the first image URL and a failing status for every other URL. -/
def env9 : Env :=
  { happyEnv [] with
      http := fun u _ => if u == "http://first" then ⟨200, [1]⟩ else ⟨500, [9]⟩ }

/-- The front label text a term element will yield, as an Option chain
over the same selectors the scraper uses. -/
def labelText? (t : Elem) : Option String :=
  (contentElem? t).bind fun c =>
    (smallSideOf? c).bind fun s =>
      ((labelSpans s).head?).map Elem.text

/-- The back definition text a term element will yield, as an Option
chain over the same selectors the scraper uses. -/
def defText? (t : Elem) : Option String :=
  (contentElem? t).bind fun c =>
    (largeSideOf? c).bind fun lg =>
      ((definitionElem? lg).bind spanChild?).map Elem.text

/-- A term element matching the DOM structure the scraper expects, with
any referenced image answering status 200: content div present, small
and large sides present, label span and definition span present, and a
src-carrying first image whose GET succeeds whenever an image exists. -/
def validTermElem (env : Env) (ua : String) (t : Elem) : Bool :=
  match contentElem? t with
  | none => false
  | some c =>
    match smallSideOf? c, largeSideOf? c with
    | some s, some lg =>
      (labelSpans s).head?.isSome &&
      (match definitionElem? lg with
       | none => false
       | some d => (spanChild? d).isSome) &&
      (if _image_exists lg then
        match (imgsOf lg).head? with
        | none => false
        | some img =>
          match attr? img "src" with
          | none => false
          | some src => (env.http src ua).status_code == 200
       else true)
    | some _, none => false
    | none, _ => false

/-- Two structurally valid terms, the second carrying one image. -/
def ts1 : List Elem :=
  [mkTermElem "Photosynthesis" "Light to energy" [],
   mkTermElem "Mitosis" "Cell division" [mkImg "http://img"]]

example :
    (scrape_quizlet_flashcards (happyEnv [mkTermElem "Mitosis" "Cell division" []])
      "url" "user" "pw" ⟨0, []⟩).result
      = .ok [⟨"Mitosis", "Cell division", none⟩] := rfl

/-- Authentication succeeds when all four form controls appear within
their waits and the post-login URL match completes in time. -/
theorem authenticate_to_quizlet_ok (env : Env) (username password : String)
    (hlb : env.loginButton.isSome = true) (hui : env.usernameInput.isSome = true)
    (hpi : env.passwordInput.isSome = true) (hsb : env.submitButton.isSome = true)
    (hurl : env.postLoginUrlReached = true) :
    authenticate_to_quizlet env username password = .ok () := by
  rw [Option.isSome_iff_exists] at hlb hui hpi hsb
  obtain ⟨lb, hlb⟩ := hlb
  obtain ⟨ui, hui⟩ := hui
  obtain ⟨pw, hpi⟩ := hpi
  obtain ⟨sb, hsb⟩ := hsb
  simp [authenticate_to_quizlet, get_elem_wait_by_xpath, hlb, hui, hpi, hsb, hurl]

/-- When the post-login URL match never completes within its wait,
authentication raises the TimeoutException of that wait. -/
theorem authenticate_to_quizlet_url_timeout (env : Env) (username password : String)
    (hlb : env.loginButton.isSome = true) (hui : env.usernameInput.isSome = true)
    (hpi : env.passwordInput.isSome = true) (hsb : env.submitButton.isSome = true)
    (hurl : env.postLoginUrlReached = false) :
    authenticate_to_quizlet env username password
      = .error (.timeoutException urlMatchesCond) := by
  rw [Option.isSome_iff_exists] at hlb hui hpi hsb
  obtain ⟨lb, hlb⟩ := hlb
  obtain ⟨ui, hui⟩ := hui
  obtain ⟨pw, hpi⟩ := hpi
  obtain ⟨sb, hsb⟩ := hsb
  simp [authenticate_to_quizlet, get_elem_wait_by_xpath, hlb, hui, hpi, hsb, hurl]

/-- When every stage up to the terms-list wait succeeds, the scrape is the
processing of the located term elements inside the driver with-block. -/
theorem scrape_reaches_terms (env : Env) (url username password : String) (fs : FS)
    (hdrv : env.driverOk = true)
    (hauth : authenticate_to_quizlet env username password = .ok ())
    (dd : Elem) (hdet : env.setPageSetDetails = some dd)
    (tl : Elem) (htl : env.termsListElement = some tl) :
    scrape_quizlet_flashcards env url username password fs =
      ⟨(process_terms env env.userAgent (termElems tl) fs).1,
       (process_terms env env.userAgent (termElems tl) fs).2, 1⟩ := by
  simp [scrape_quizlet_flashcards, init_chrome_webdriver, hdrv, hauth, hdet, htl,
    get_elem_wait_by_xpath]

/-- C4: for every call to the top-level scrape operation, whether it
returns normally or raises at any stage after the driver starts, the
browser session is closed exactly once. -/
theorem C4_thm (env : Env) (url username password : String) (fs : FS)
    (hdrv : env.driverOk = true) :
    (scrape_quizlet_flashcards env url username password fs).driverCloses = 1 := by
  simp [scrape_quizlet_flashcards, init_chrome_webdriver, hdrv]

theorem C4_witness :
    (scrape_quizlet_flashcards (happyEnv []) "url" "user" "pw" ⟨0, []⟩).driverCloses
      = 1 :=
  C4_thm (happyEnv []) "url" "user" "pw" ⟨0, []⟩ rfl

/-- C6: if the post-login URL is not reached within the bounded timeout,
the scrape fails with the authentication timeout and returns no records. -/
theorem C6_thm (env : Env) (url username password : String) (fs : FS)
    (hdrv : env.driverOk = true)
    (hlb : env.loginButton.isSome = true) (hui : env.usernameInput.isSome = true)
    (hpi : env.passwordInput.isSome = true) (hsb : env.submitButton.isSome = true)
    (hurl : env.postLoginUrlReached = false) :
    (scrape_quizlet_flashcards env url username password fs).result
      = .error (.timeoutException urlMatchesCond)
    ∧ ∀ l, (scrape_quizlet_flashcards env url username password fs).result ≠ .ok l := by
  have hauth := authenticate_to_quizlet_url_timeout env username password hlb hui hpi hsb hurl
  refine ⟨?_, ?_⟩
  · simp [scrape_quizlet_flashcards, init_chrome_webdriver, hdrv, hauth]
  · intro l
    simp [scrape_quizlet_flashcards, init_chrome_webdriver, hdrv, hauth]

theorem C6_witness :
    (scrape_quizlet_flashcards env6 "url" "user" "pw" ⟨0, []⟩).result
      = .error (.timeoutException urlMatchesCond)
    ∧ ∀ l, (scrape_quizlet_flashcards env6 "url" "user" "pw" ⟨0, []⟩).result ≠ .ok l :=
  C6_thm env6 "url" "user" "pw" ⟨0, []⟩ rfl rfl rfl rfl rfl rfl

/-- C7: if the terms-list container does not appear within the bounded
timeout, the scrape fails with the locate timeout of that wait and
returns no records. -/
theorem C7_thm (env : Env) (url username password : String) (fs : FS)
    (hdrv : env.driverOk = true)
    (hlb : env.loginButton.isSome = true) (hui : env.usernameInput.isSome = true)
    (hpi : env.passwordInput.isSome = true) (hsb : env.submitButton.isSome = true)
    (hurl : env.postLoginUrlReached = true)
    (hdet : env.setPageSetDetails.isSome = true)
    (htl : env.termsListElement = none) :
    (scrape_quizlet_flashcards env url username password fs).result
      = .error (.timeoutException termsListXPath)
    ∧ ∀ l, (scrape_quizlet_flashcards env url username password fs).result ≠ .ok l := by
  have hauth := authenticate_to_quizlet_ok env username password hlb hui hpi hsb hurl
  rw [Option.isSome_iff_exists] at hdet
  obtain ⟨dd, hdet⟩ := hdet
  refine ⟨?_, ?_⟩
  · simp [scrape_quizlet_flashcards, init_chrome_webdriver, hdrv, hauth, hdet, htl,
      get_elem_wait_by_xpath]
  · intro l
    simp [scrape_quizlet_flashcards, init_chrome_webdriver, hdrv, hauth, hdet, htl,
      get_elem_wait_by_xpath]

theorem C7_witness :
    (scrape_quizlet_flashcards env7 "url" "user" "pw" ⟨0, []⟩).result
      = .error (.timeoutException termsListXPath)
    ∧ ∀ l, (scrape_quizlet_flashcards env7 "url" "user" "pw" ⟨0, []⟩).result ≠ .ok l :=
  C7_thm env7 "url" "user" "pw" ⟨0, []⟩ rfl rfl rfl rfl rfl rfl rfl rfl

/-- C10: if the terms-list container is found but holds zero term
elements, the scrape succeeds with the empty list. -/
theorem C10_thm (env : Env) (url username password : String) (fs : FS)
    (hdrv : env.driverOk = true)
    (hlb : env.loginButton.isSome = true) (hui : env.usernameInput.isSome = true)
    (hpi : env.passwordInput.isSome = true) (hsb : env.submitButton.isSome = true)
    (hurl : env.postLoginUrlReached = true)
    (hdet : env.setPageSetDetails.isSome = true)
    (tl : Elem) (htl : env.termsListElement = some tl)
    (hempty : termElems tl = []) :
    (scrape_quizlet_flashcards env url username password fs).result = .ok [] := by
  have hauth := authenticate_to_quizlet_ok env username password hlb hui hpi hsb hurl
  rw [Option.isSome_iff_exists] at hdet
  obtain ⟨dd, hdet⟩ := hdet
  rw [scrape_reaches_terms env url username password fs hdrv hauth dd hdet tl htl]
  simp [hempty, process_terms]

theorem C10_witness :
    (scrape_quizlet_flashcards (happyEnv []) "url" "user" "pw" ⟨0, []⟩).result
      = .ok [] :=
  C10_thm (happyEnv []) "url" "user" "pw" ⟨0, []⟩ rfl rfl rfl rfl rfl rfl rfl
    (mkTermsList []) rfl rfl

/-- With no image element under the large side, the download step returns
None and leaves the temp-file state unchanged. -/
theorem download_image_no_image (env : Env) (fs : FS) (lg : Elem) (ua : String)
    (h : _image_exists lg = false) :
    _download_image env fs lg ua = (fs, .ok none) := by
  simp [_download_image, h]

/-- With a first image element carrying a src, the download step is the
GET on that src: an error on a non-200 status, otherwise a fresh temp
file holding the response body. -/
theorem download_image_head (env : Env) (fs : FS) (lg : Elem) (ua : String)
    (img : Elem) (src : String)
    (himg : (imgsOf lg).head? = some img)
    (hsrc : attr? img "src" = some src) :
    _download_image env fs lg ua =
      (if (env.http src ua).status_code ≠ 200 then
        (fs, .error (.valueError "Could not download image"))
      else
        (⟨fs.counter + 1, (tmpName fs.counter, (env.http src ua).content) :: fs.files⟩,
         .ok (some (tmpName fs.counter)))) := by
  have hex : _image_exists lg = true := by
    unfold _image_exists
    cases himgs : imgsOf lg with
    | nil => rw [himgs] at himg; simp at himg
    | cons a l => simp
  simp only [_download_image, hex, himg, hsrc]
  simp

/-- A successful download step returns a path exactly when an image
element was present. -/
theorem download_image_isSome (env : Env) (fs fs' : FS) (lg : Elem) (ua : String)
    (op : Option String)
    (h : _download_image env fs lg ua = (fs', .ok op)) :
    op.isSome = _image_exists lg := by
  unfold _download_image at h
  split at h
  · rename_i hfalse
    simp only [Prod.mk.injEq, Except.ok.injEq] at h
    rw [hfalse, ← h.2]
    rfl
  · rename_i hne
    have htrue : _image_exists lg = true := by
      revert hne
      cases _image_exists lg <;> simp
    split at h
    · simp at h
    · split at h
      · simp at h
      · dsimp only at h
        split at h
        · simp at h
        · simp only [Prod.mk.injEq, Except.ok.injEq] at h
          rw [htrue, ← h.2]
          rfl

/-- A successful large-side processing step embeds a successful download
step with the same final temp-file state and path. -/
theorem process_large_ok_download (env : Env) (fs fs' : FS) (lg : Elem) (ua : String)
    (back : String) (bip : Option String)
    (h : _process_large_side_elem env fs lg ua = (fs', .ok (back, bip))) :
    _download_image env fs lg ua = (fs', .ok bip) := by
  unfold _process_large_side_elem at h
  split at h
  · simp at h
  · split at h
    · simp at h
    · rename_i heq
      simp only [Prod.mk.injEq, Except.ok.injEq] at h
      obtain ⟨h1, h2, h3⟩ := h
      rw [← h1, ← h3]
      exact heq

/-- C2: every extracted flashcard has back_image_path set exactly when an
image element was present under the large side of its term. -/
theorem C2_thm (env : Env) (fs fs' : FS) (t : Elem) (ua : String) (fc : Flashcard)
    (h : _process_term_element env fs t ua = (fs', .ok fc)) :
    ∃ c lg, contentElem? t = some c ∧ largeSideOf? c = some lg ∧
      fc.back_image_path.isSome = _image_exists lg := by
  unfold _process_term_element at h
  split at h
  · simp at h
  · rename_i c hc
    split at h
    · simp at h
    · rename_i s hs
      split at h
      · simp at h
      · rename_i lg hlg
        split at h
        · simp at h
        · rename_i fs2 back bip hlarge
          split at h
          · simp at h
          · rename_i front hfront
            simp only [Prod.mk.injEq, Except.ok.injEq] at h
            refine ⟨c, lg, hc, hlg, ?_⟩
            rw [← h.2]
            exact download_image_isSome env fs fs2 lg ua bip
              (process_large_ok_download env fs fs2 lg ua back bip hlarge)

theorem C2_witness :
    ∃ c lg,
      contentElem? (mkTermElem "Mitosis" "Cell division" [mkImg "http://img"]) = some c
      ∧ largeSideOf? c = some lg
      ∧ (Flashcard.mk "Mitosis" "Cell division" (some (tmpName 0))).back_image_path.isSome
          = _image_exists lg :=
  C2_thm (happyEnv []) ⟨0, []⟩ ⟨1, [(tmpName 0, [7])]⟩
    (mkTermElem "Mitosis" "Cell division" [mkImg "http://img"]) "UA"
    ⟨"Mitosis", "Cell division", some (tmpName 0)⟩ rfl

/-- C3 counterexample: a 200 response with an empty body makes the
download return a path to an empty file, so the downloaded content is not
non-empty although no ImageDownloadError is raised. -/
theorem C3_counterexample :
    _download_image env3x ⟨0, []⟩ (mkLargeSide "defn" [mkImg "http://img"]) "UA"
      = (⟨1, [(tmpName 0, [])]⟩, .ok (some (tmpName 0)))
    ∧ (env3x.http "http://img" "UA").status_code = 200 :=
  ⟨rfl, rfl⟩

/-- C3 as amended: for a term whose large side holds an image with a src,
the download raises the ImageDownloadError exactly when the status code
is not 200, and otherwise returns the path of a freshly created temp file
whose content equals the HTTP response body (which may be empty). -/
theorem C3_thm (env : Env) (fs : FS) (lg : Elem) (ua : String)
    (img : Elem) (src : String)
    (himg : (imgsOf lg).head? = some img)
    (hsrc : attr? img "src" = some src) :
    ((env.http src ua).status_code ≠ 200 →
      _download_image env fs lg ua
        = (fs, .error (.valueError "Could not download image")))
    ∧ ((env.http src ua).status_code = 200 →
      _download_image env fs lg ua
        = (⟨fs.counter + 1, (tmpName fs.counter, (env.http src ua).content) :: fs.files⟩,
           .ok (some (tmpName fs.counter)))) := by
  rw [download_image_head env fs lg ua img src himg hsrc]
  constructor
  · intro hne
    simp [hne]
  · intro heq
    simp [heq]

theorem C3_witness :
    (((happyEnv []).http "http://img" "UA").status_code ≠ 200 →
      _download_image (happyEnv []) ⟨0, []⟩ (mkLargeSide "defn" [mkImg "http://img"]) "UA"
        = (⟨0, []⟩, .error (.valueError "Could not download image")))
    ∧ (((happyEnv []).http "http://img" "UA").status_code = 200 →
      _download_image (happyEnv []) ⟨0, []⟩ (mkLargeSide "defn" [mkImg "http://img"]) "UA"
        = (⟨0 + 1, [(tmpName 0, ((happyEnv []).http "http://img" "UA").content)]⟩,
           .ok (some (tmpName 0)))) :=
  C3_thm (happyEnv []) ⟨0, []⟩ (mkLargeSide "defn" [mkImg "http://img"]) "UA"
    (mkImg "http://img") "http://img" rfl rfl

/-- C8: the extracted front equals the label text of the small-side
`./div/a/span` element and the back equals the definition text of the
large-side `.//a[definitionText]/span` element. -/
theorem C8_thm (env : Env) (fs fs' : FS) (t : Elem) (ua : String) (fc : Flashcard)
    (c s lg sp d dsp : Elem)
    (hc : contentElem? t = some c) (hs : smallSideOf? c = some s)
    (hlg : largeSideOf? c = some lg)
    (hsp : (labelSpans s).head? = some sp)
    (hd : definitionElem? lg = some d) (hdsp : spanChild? d = some dsp)
    (h : _process_term_element env fs t ua = (fs', .ok fc)) :
    fc.front = sp.text ∧ fc.back = dsp.text := by
  have hdef : _process_definition_text_elem lg = .ok dsp.text := by
    simp [_process_definition_text_elem, hd, hdsp]
  have hfront : _process_small_side_elem s = .ok sp.text := by
    simp [_process_small_side_elem, hsp]
  unfold _process_term_element at h
  simp only [hc, hs, hlg] at h
  split at h
  · simp at h
  · rename_i fs2 back bip hlarge
    simp only [hfront, Prod.mk.injEq, Except.ok.injEq] at h
    obtain ⟨-, h2⟩ := h
    subst h2
    unfold _process_large_side_elem at hlarge
    simp only [hdef] at hlarge
    split at hlarge
    · simp at hlarge
    · simp only [Prod.mk.injEq, Except.ok.injEq] at hlarge
      obtain ⟨-, hback, -⟩ := hlarge
      subst hback
      exact ⟨rfl, rfl⟩

theorem C8_witness :
    (Flashcard.mk "Photosynthesis" "Light to energy" none).front
        = (Elem.node "span" [] "Photosynthesis" []).text
    ∧ (Flashcard.mk "Photosynthesis" "Light to energy" none).back
        = (Elem.node "span" [] "Light to energy" []).text :=
  C8_thm (happyEnv []) ⟨0, []⟩ ⟨0, []⟩
    (mkTermElem "Photosynthesis" "Light to energy" []) "UA"
    ⟨"Photosynthesis", "Light to energy", none⟩
    (.node "div" [("class", "SetPageTerm-content")] ""
      [mkSmallSide "Photosynthesis", mkLargeSide "Light to energy" []])
    (mkSmallSide "Photosynthesis")
    (mkLargeSide "Light to energy" [])
    (.node "span" [] "Photosynthesis" [])
    (.node "a" [("class", "SetPageTerm-definitionText")] ""
      [.node "span" [] "Light to energy" []])
    (.node "span" [] "Light to energy" [])
    rfl rfl rfl rfl rfl rfl rfl

/-- C9: when the large side holds several image elements, only the first
one in document order is fetched and written; the others are ignored. -/
theorem C9_thm (env : Env) (fs : FS) (lg : Elem) (ua : String)
    (img1 : Elem) (rest : List Elem) (src : String)
    (himgs : imgsOf lg = img1 :: rest)
    (hsrc : attr? img1 "src" = some src)
    (hstatus : (env.http src ua).status_code = 200) :
    _download_image env fs lg ua =
      (⟨fs.counter + 1, (tmpName fs.counter, (env.http src ua).content) :: fs.files⟩,
       .ok (some (tmpName fs.counter))) := by
  have hhead : (imgsOf lg).head? = some img1 := by rw [himgs]; rfl
  rw [download_image_head env fs lg ua img1 src hhead hsrc]
  simp [hstatus]

theorem C9_witness :
    _download_image env9 ⟨0, []⟩
      (mkLargeSide "defn" [mkImg "http://first", mkImg "http://second"]) "UA"
      = (⟨0 + 1, [(tmpName 0, (env9.http "http://first" "UA").content)]⟩,
         .ok (some (tmpName 0))) :=
  C9_thm env9 ⟨0, []⟩
    (mkLargeSide "defn" [mkImg "http://first", mkImg "http://second"]) "UA"
    (mkImg "http://first") [mkImg "http://second"] "http://first"
    rfl rfl rfl

/-- Processing a structurally valid term element succeeds and extracts
exactly the label and definition texts of that term. -/
theorem process_term_valid_ok (env : Env) (ua : String) (t : Elem) (fs : FS)
    (h : validTermElem env ua t = true) :
    ∃ fs' fc, _process_term_element env fs t ua = (fs', .ok fc)
      ∧ labelText? t = some fc.front ∧ defText? t = some fc.back := by
  unfold validTermElem at h
  split at h
  · simp at h
  · rename_i c hc
    split at h
    · rename_i s lg hs hlg
      rw [Bool.and_assoc, Bool.and_eq_true, Bool.and_eq_true] at h
      obtain ⟨hsp, hdef, himg⟩ := h
      rw [Option.isSome_iff_exists] at hsp
      obtain ⟨sp, hsp⟩ := hsp
      have hdefelem : ∃ d dsp, definitionElem? lg = some d ∧ spanChild? d = some dsp := by
        revert hdef
        split
        · simp
        · rename_i d hd
          intro hdef
          rw [Option.isSome_iff_exists] at hdef
          obtain ⟨dsp, hdsp⟩ := hdef
          exact ⟨d, dsp, hd, hdsp⟩
      obtain ⟨d, dsp, hd, hdsp⟩ := hdefelem
      by_cases hex : _image_exists lg = true
      · rw [if_pos hex] at himg
        revert himg
        split
        · simp
        · rename_i img hhead
          split
          · simp
          · rename_i src hsrc
            intro himg
            rw [beq_iff_eq] at himg
            refine ⟨⟨fs.counter + 1, (tmpName fs.counter, (env.http src ua).content) :: fs.files⟩,
              ⟨sp.text, dsp.text, some (tmpName fs.counter)⟩, ?_, ?_, ?_⟩
            · have hdl := download_image_head env fs lg ua img src hhead hsrc
              simp [_process_term_element, hc, hs, hlg, _process_large_side_elem,
                _process_definition_text_elem, hd, hdsp, hdl, himg,
                _process_small_side_elem, hsp]
            · simp [labelText?, hc, hs, hsp]
            · simp [defText?, hc, hlg, hd, hdsp]
      · have hexf : _image_exists lg = false := by
          revert hex
          cases _image_exists lg <;> simp
        have hdl := download_image_no_image env fs lg ua hexf
        refine ⟨fs, ⟨sp.text, dsp.text, none⟩, ?_, ?_, ?_⟩
        · simp [_process_term_element, hc, hs, hlg, _process_large_side_elem,
            _process_definition_text_elem, hd, hdsp, hdl,
            _process_small_side_elem, hsp]
        · simp [labelText?, hc, hs, hsp]
        · simp [defText?, hc, hlg, hd, hdsp]
    · simp at h
    · simp at h

/-- Processing a list of structurally valid term elements succeeds and
yields one flashcard per term, in order, carrying that term's label and
definition texts. -/
theorem process_terms_valid_ok (env : Env) (ua : String) :
    ∀ (ts : List Elem) (fs : FS),
      (∀ t ∈ ts, validTermElem env ua t = true) →
      ∃ fs' l, process_terms env ua ts fs = (fs', .ok l)
        ∧ ts.map labelText? = l.map (fun fc => some fc.front)
        ∧ ts.map defText? = l.map (fun fc => some fc.back) := by
  intro ts
  induction ts with
  | nil =>
    intro fs hv
    exact ⟨fs, [], rfl, rfl, rfl⟩
  | cons t ts ih =>
    intro fs hv
    obtain ⟨fs1, fc, hterm, hfront, hback⟩ :=
      process_term_valid_ok env ua t fs (hv t (by simp))
    obtain ⟨fs2, l, hrest, hfl, hbl⟩ := ih fs1 (fun x hx => hv x (by simp [hx]))
    refine ⟨fs2, fc :: l, ?_, ?_, ?_⟩
    · simp [process_terms, hterm, hrest]
    · simp [hfront, hfl]
    · simp [hback, hbl]

/-- A successful term-list processing yields exactly one record per term
element. -/
theorem process_terms_length (env : Env) (ua : String) :
    ∀ (ts : List Elem) (fs fs' : FS) (l : List Flashcard),
      process_terms env ua ts fs = (fs', .ok l) → l.length = ts.length := by
  intro ts
  induction ts with
  | nil =>
    intro fs fs' l h
    simp only [process_terms, Prod.mk.injEq, Except.ok.injEq] at h
    rw [← h.2]
    rfl
  | cons t ts ih =>
    intro fs fs' l h
    unfold process_terms at h
    split at h
    · simp at h
    · rename_i fs1 fc hterm
      split at h
      · simp at h
      · rename_i fs2 rest hrest
        simp only [Prod.mk.injEq, Except.ok.injEq] at h
        rw [← h.2]
        simp [ih _ _ _ hrest]

/-- C5: no failure is recovered internally: every scrape either
propagates a single error, or returns the complete list with one record
per located term element; a partial list is never returned. -/
theorem C5_thm (env : Env) (url username password : String) (fs : FS) :
    (∃ e, (scrape_quizlet_flashcards env url username password fs).result = .error e)
    ∨ (∃ tl l, env.termsListElement = some tl
        ∧ (scrape_quizlet_flashcards env url username password fs).result = .ok l
        ∧ l.length = (termElems tl).length) := by
  cases hinit : init_chrome_webdriver env with
  | error e =>
    left
    exact ⟨e, by simp [scrape_quizlet_flashcards, hinit]⟩
  | ok u =>
    cases hauth : authenticate_to_quizlet env username password with
    | error e =>
      left
      exact ⟨e, by simp [scrape_quizlet_flashcards, hinit, hauth]⟩
    | ok u2 =>
      cases hdet : env.setPageSetDetails with
      | none =>
        left
        exact ⟨.noSuchElementException,
          by simp [scrape_quizlet_flashcards, hinit, hauth, hdet]⟩
      | some dd =>
        cases htl : env.termsListElement with
        | none =>
          left
          exact ⟨.timeoutException termsListXPath,
            by simp [scrape_quizlet_flashcards, hinit, hauth, hdet, htl,
              get_elem_wait_by_xpath]⟩
        | some tl =>
          cases hpt : process_terms env env.userAgent (termElems tl) fs with
          | mk fs2 res =>
            cases res with
            | error e =>
              left
              exact ⟨e, by simp [scrape_quizlet_flashcards, hinit, hauth, hdet, htl,
                get_elem_wait_by_xpath, hpt]⟩
            | ok l =>
              right
              exact ⟨tl, l, rfl,
                by simp [scrape_quizlet_flashcards, hinit, hauth, hdet, htl,
                  get_elem_wait_by_xpath, hpt],
                process_terms_length env env.userAgent _ _ _ _ hpt⟩

/-- C1 counterexample: a page whose single term element matches the
expected structure but carries empty label and definition texts is
scraped into one record whose front and back are the empty string, so
the extracted records are not always non-empty. -/
theorem C1_counterexample :
    (scrape_quizlet_flashcards (happyEnv [mkTermElem "" "" []]) "url" "user" "pw"
      ⟨0, []⟩).result = .ok [⟨"", "", none⟩]
    ∧ validTermElem (happyEnv [mkTermElem "" "" []]) "UA" (mkTermElem "" "" []) = true
    ∧ termElems (mkTermsList [mkTermElem "" "" []]) = [mkTermElem "" "" []] :=
  ⟨rfl, rfl, rfl⟩

/-- C1 as amended: for every page whose DOM matches the expected
structure (and whose images, if any, download with status 200), the
scrape returns exactly one record per term element, in document order,
each record carrying the label and definition texts of its term (so
non-empty whenever those DOM texts are non-empty). -/
theorem C1_thm (env : Env) (url username password : String) (fs : FS)
    (hdrv : env.driverOk = true)
    (hlb : env.loginButton.isSome = true) (hui : env.usernameInput.isSome = true)
    (hpi : env.passwordInput.isSome = true) (hsb : env.submitButton.isSome = true)
    (hurl : env.postLoginUrlReached = true)
    (hdet : env.setPageSetDetails.isSome = true)
    (tl : Elem) (htl : env.termsListElement = some tl)
    (hvalid : ∀ t ∈ termElems tl, validTermElem env env.userAgent t = true) :
    ∃ l, (scrape_quizlet_flashcards env url username password fs).result = .ok l
      ∧ l.length = (termElems tl).length
      ∧ (termElems tl).map labelText? = l.map (fun fc => some fc.front)
      ∧ (termElems tl).map defText? = l.map (fun fc => some fc.back) := by
  have hauth := authenticate_to_quizlet_ok env username password hlb hui hpi hsb hurl
  rw [Option.isSome_iff_exists] at hdet
  obtain ⟨dd, hdet⟩ := hdet
  obtain ⟨fs2, l, hpt, hf, hb⟩ :=
    process_terms_valid_ok env env.userAgent (termElems tl) fs hvalid
  refine ⟨l, ?_, ?_, hf, hb⟩
  · rw [scrape_reaches_terms env url username password fs hdrv hauth dd hdet tl htl]
    simp [hpt]
  · have hlen := congrArg List.length hf
    simp only [List.length_map] at hlen
    exact hlen.symm

theorem C1_witness :
    ∃ l, (scrape_quizlet_flashcards (happyEnv ts1) "url" "user" "pw" ⟨0, []⟩).result
        = .ok l
      ∧ l.length = (termElems (mkTermsList ts1)).length
      ∧ (termElems (mkTermsList ts1)).map labelText?
          = l.map (fun fc => some fc.front)
      ∧ (termElems (mkTermsList ts1)).map defText?
          = l.map (fun fc => some fc.back) :=
  C1_thm (happyEnv ts1) "url" "user" "pw" ⟨0, []⟩ rfl rfl rfl rfl rfl rfl rfl
    (mkTermsList ts1) rfl (by decide)
